import Mathlib

/-!
Shallow embedding of the eco-api environmental engine (src/app.py) and
verification of the frozen claims about it.

Numbers: Python floats are modelled as rationals (ℚ); the arithmetic in the
engine is plain +, *, /, max, so the rational model tracks the source
formulas exactly.  Python `round` (banker's rounding) is modelled by
`roundHalfEven`.  Python truthiness on the optional scraped fields is
modelled explicitly (`none`/`0`/`""`/`[]` are falsy).

The HTTP fetch inside `scrape_amazon` is the one effectful operation; it is
modelled by a `FetchOutcome` environment value enumerating the outcomes the
source distinguishes (missing libraries, non-200 status, an exception — its
payload carrying the partially parsed signals the except handler returns —
or a fetched page whose parsed signals are the `ok` payload).  Everything after
the fetch is translated directly from the source.  The request cache and the
timestamp are external to the engine (spec §1) and are not modelled; the
embedding covers the non-cached computation path of `analyze_post`.
-/

namespace EcoApi

/-- `listPrefixOf needle l` : `needle` is a prefix of `l`. -/
def listPrefixOf : List Char → List Char → Bool
  | [], _ => true
  | _ :: _, [] => false
  | a :: as, b :: bs => a = b && listPrefixOf as bs

/-- `listInfixOf needle l` : `needle` occurs contiguously inside `l`. -/
def listInfixOf (needle : List Char) : List Char → Bool
  | [] => listPrefixOf needle []
  | b :: bs => listPrefixOf needle (b :: bs) || listInfixOf needle bs

/-- Substring test: `strContains hay needle` is `needle in hay` in Python. -/
def strContains (hay needle : String) : Bool :=
  listInfixOf needle.toList hay.toList

/-- Python `str.lower()` (ASCII model), character by character. -/
def pyLower (s : String) : String := ⟨s.data.map Char.toLower⟩

/-- Python `round` on floats: round half to even (banker's rounding). -/
def roundHalfEven (q : ℚ) : ℤ :=
  let f := ⌊q⌋
  let frac := q - f
  if frac < 1/2 then f
  else if 1/2 < frac then f + 1
  else if f % 2 = 0 then f else f + 1

/-- Python `round(q, n)`. -/
def roundTo (q : ℚ) (n : ℕ) : ℚ :=
  ((roundHalfEven (q * 10 ^ n) : ℚ)) / 10 ^ n

/-- Profile row of `MATERIAL_DATABASE` in src/app.py. -/
structure MaterialProfile where
  co2_per_kg : ℚ
  water_per_kg : ℚ
  recyclability : ℚ
  durability : ℚ
  deriving DecidableEq

/-- `MATERIAL_DATABASE` from src/app.py, in dict insertion order. -/
def MATERIAL_DATABASE : List (String × MaterialProfile) :=
  [ ("steel",     ⟨2,    50,    90, 95⟩),
    ("aluminum",  ⟨8,    100,   95, 90⟩),
    ("plastic",   ⟨3,    20,    30, 60⟩),
    ("wood",      ⟨1/2,  10,    70, 70⟩),
    ("cotton",    ⟨5,    10000, 60, 50⟩),
    ("polyester", ⟨6,    60,    20, 70⟩),
    ("glass",     ⟨1,    15,    100, 80⟩),
    ("ceramic",   ⟨4/5,  20,    40, 85⟩),
    ("leather",   ⟨17,   17000, 20, 90⟩),
    ("paper",     ⟨6/5,  30,    80, 30⟩),
    ("rubber",    ⟨3,    40,    50, 70⟩) ]

/-- `TRANSPORT_DISTANCES` from src/app.py. -/
def TRANSPORT_DISTANCES : List (String × ℚ) :=
  [ ("China", 10000), ("India", 8000), ("Vietnam", 10000), ("USA", 1000),
    ("Germany", 1000), ("Mexico", 2000), ("Unknown", 5000) ]

/-- `TRANSPORT_DISTANCES.get(origin or "Unknown", 5000)` from `compute_metrics`. -/
def transportDistance (origin : String) : ℚ :=
  (TRANSPORT_DISTANCES.lookup (if origin = "" then "Unknown" else origin)).getD 5000

/-- Profile lookup with the default profile of the `else` branch of
`compute_metrics` (co2 3.0, water 50, recyclability 50, durability 50). -/
def materialProfileOrDefault (m : String) : MaterialProfile :=
  (MATERIAL_DATABASE.lookup m).getD ⟨3, 50, 50, 50⟩

/-- `list(dict.fromkeys(found))` in `guess_materials`: de-duplicate keeping
the first occurrence of each element. -/
def dedupKeepFirst (l : List String) : List String :=
  l.foldl (fun acc x => if acc.contains x then acc else acc ++ [x]) []

/-- The `material_keywords` dict local to `guess_materials` in src/app.py,
in dict insertion order. -/
def material_keywords : List (String × List String) :=
  [ ("steel", ["steel", "stainless", "iron", "metal"]),
    ("aluminum", ["aluminum", "aluminium"]),
    ("plastic", ["plastic", "polypropylene", "pp", "polyethylene", "pe", "pet", "abs", "silicone", "rubber"]),
    ("wood", ["wood", "bamboo", "oak", "pine", "cedar"]),
    ("cotton", ["cotton"]),
    ("polyester", ["polyester", "synthetic"]),
    ("glass", ["glass"]),
    ("ceramic", ["ceramic", "porcelain"]),
    ("leather", ["leather"]),
    ("paper", ["paper", "cardboard"]) ]

/-- `guess_materials` from src/app.py. -/
def guess_materials (url : String) : List String :=
  let u := pyLower url
  let found := (material_keywords.filter (fun p => p.2.any (fun k => strContains u k))).map (fun p => p.1)
  if ¬ found.isEmpty then dedupKeepFirst found
  else if ["kitchen", "cookware", "utensil", "pan", "pot"].any (fun x => strContains u x) then ["steel", "plastic"]
  else if ["furniture", "desk", "chair", "table", "sofa"].any (fun x => strContains u x) then ["wood", "steel"]
  else if ["clothing", "shirt", "pants", "dress"].any (fun x => strContains u x) then ["cotton", "polyester"]
  else if ["electronic", "computer", "laptop", "phone", "tablet"].any (fun x => strContains u x) then ["plastic", "aluminum"]
  else ["plastic"]

/-- `guess_weight_kg` from src/app.py. -/
def guess_weight_kg (url : String) : ℚ :=
  let u := pyLower url
  if ["phone", "smartphone", "mobile"].any (fun x => strContains u x) then 1/5
  else if ["laptop", "notebook", "computer"].any (fun x => strContains u x) then 5/2
  else if ["tablet", "ipad", "kindle"].any (fun x => strContains u x) then 1/2
  else if ["furniture", "desk", "chair", "sofa"].any (fun x => strContains u x) then 15
  else if ["clothing", "shirt", "pants", "dress"].any (fun x => strContains u x) then 3/10
  else if strContains u "book" then 1/2
  else if ["kitchen", "cookware", "pan", "pot"].any (fun x => strContains u x) then 2
  else if ["toy", "game"].any (fun x => strContains u x) then 1/2
  else 1

/-- `co2_score = max(0.0, 100.0 - (co2_total * 5.0))` (src/app.py line 267). -/
def co2ScoreOf (co2_total : ℚ) : ℚ := max 0 (100 - co2_total * 5)

/-- `water_score = max(0.0, 100.0 - (water / 100.0))` (src/app.py line 268). -/
def waterScoreOf (water : ℚ) : ℚ := max 0 (100 - water / 100)

/-- `eco_score = co2_score*0.4 + water_score*0.2 + recyclability*0.2 +
durability*0.2` (src/app.py line 269), as a function of the unrounded
`co2_total`, `water`, `recyclability`, `durability`. -/
def ecoScoreOf (co2_total water recyclability durability : ℚ) : ℚ :=
  co2ScoreOf co2_total * (4/10) + waterScoreOf water * (2/10)
    + recyclability * (2/10) + durability * (2/10)

/-- Recommendation strings of `compute_metrics` (src/app.py lines 272-278). -/
def highCarbonMsg : String := "High carbon footprint — consider locally made alternatives."

def lowRecyclabilityMsg : String := "Low recyclability — look for products with sustainable materials."

def frequentReplacementMsg : String := "May need frequent replacement — consider higher quality options."

def positiveMsg : String := "Good environmental profile — relatively eco-friendly choice."

def seekAlternativesMsg : String := "Consider searching for more sustainable alternatives."

/-- The recommendation block of `compute_metrics` (src/app.py lines 271-278):
three independent appends followed by an if/elif on `eco_score`, all on the
unrounded values. -/
def recommendationsFor (co2_total recyclability durability eco_score : ℚ) : List String :=
  (if co2_total > 10 then [highCarbonMsg] else [])
    ++ (if recyclability < 50 then [lowRecyclabilityMsg] else [])
    ++ (if durability < 60 then [frequentReplacementMsg] else [])
    ++ (if eco_score > 70 then [positiveMsg]
        else if eco_score < 40 then [seekAlternativesMsg] else [])

/-- Result record of `compute_metrics` (the dict returned at src/app.py
lines 280-289; quantities rounded to 2 places, scores to 1). -/
structure Metrics where
  co2_manufacturing : ℚ
  co2_transport : ℚ
  co2_total : ℚ
  water_usage : ℚ
  recyclability : ℚ
  durability : ℚ
  eco_score : ℚ
  recommendations : List String
  deriving DecidableEq

/-- `compute_metrics` from src/app.py. -/
def compute_metrics (materials : List String) (weight_kg : ℚ) (origin : String) : Metrics :=
  let w_each := if materials.isEmpty then weight_kg else weight_kg / materials.length
  let ms := if materials.isEmpty then ["plastic"] else materials
  let profiles := ms.map materialProfileOrDefault
  let co2_manu := ((profiles.map (fun d => w_each * d.co2_per_kg)).sum) * (12/10)
  let water := (profiles.map (fun d => w_each * d.water_per_kg)).sum
  let rec_scores := profiles.map (fun d => d.recyclability)
  let dur_scores := profiles.map (fun d => d.durability)
  let distance := transportDistance origin
  let co2_transport := weight_kg * distance * (1/100000) * 10
  let co2_total := co2_manu + co2_transport
  let recyclability := rec_scores.sum / rec_scores.length
  let durability := dur_scores.sum / dur_scores.length
  let eco_score := ecoScoreOf co2_total water recyclability durability
  { co2_manufacturing := roundTo co2_manu 2,
    co2_transport := roundTo co2_transport 2,
    co2_total := roundTo co2_total 2,
    water_usage := roundTo water 2,
    recyclability := roundTo recyclability 1,
    durability := roundTo durability 1,
    eco_score := roundTo eco_score 1,
    recommendations := recommendationsFor co2_total recyclability durability eco_score }

/-- The partial-signals dict built by `scrape_amazon` and consumed by
`analyze_post` (src/app.py lines 117 and 340): `title`, `materials`,
`weight_kg`, `origin`. -/
structure Extracted where
  title : Option String
  materials : List String
  weight_kg : Option ℚ
  origin : Option String
  deriving DecidableEq

/-- The all-`None` dict of src/app.py lines 117 and 340. -/
def emptyExtracted : Extracted := ⟨none, [], none, none⟩

/-- Python truthiness of an optional string: `None` and `""` are falsy. -/
def truthyOptStr : Option String → Bool
  | none => false
  | some s => ¬ s = ""

/-- Python truthiness of an optional float: `None` and `0.0` are falsy. -/
def truthyOptQ : Option ℚ → Bool
  | none => false
  | some q => ¬ q = 0

/-- Environment model of the one effectful operation, the HTTP fetch inside
`scrape_amazon`.  The constructors are the outcomes the source distinguishes:
`httpx`/`bs4` missing (line 120), non-200 status or empty body (line 127),
an exception inside the try block (line 190), or a successful fetch whose
parsed page signals are the `ok` payload (the HTML parsing of lines 132-181
is summarised by the signals it yields, since no claim is about the parser
itself).  The `exn` payload `sigs` is the content of the result dict at the
moment the exception is raised: the except handler at lines 190-193 falls
through to `return result, notes`, so signals already parsed before a
mid-parse exception (e.g. an origin parsed before `_to_kg` raises on a
malformed weight) survive in the returned partial.  An exception raised by
the fetch call itself (timeout, connection error, line 126) happens before
any parsing statement has run, so for those `sigs` is the all-None dict. -/
inductive FetchOutcome where
  | libsMissing
  | badStatus (status : ℕ)
  | exn (ename emsg : String) (sigs : Extracted)
  | ok (page : Extracted)
  deriving DecidableEq

/-- A fetch outcome that yields no fully parsed page: the three failure
constructors. -/
def FetchFailed : FetchOutcome → Prop
  | .ok _ => False
  | _ => True

/-- A failure of the fetch itself, before any parsing could mutate the
result dict: the scrape libraries are unavailable, the response was non-200
or empty, or an exception was raised by the `client.get` call (line 126),
which precedes every parsing statement, so the result dict is still the
all-None initial value. -/
def FetchLevelFailure : FetchOutcome → Prop
  | .libsMissing => True
  | .badStatus _ => True
  | .exn _ _ sigs => sigs = emptyExtracted
  | .ok _ => False

/-- `scrape_amazon` from src/app.py, as a function of the fetch outcome:
the missing-libraries and non-200 paths return the still-empty signals plus
an explanatory note, the exception path returns the partially mutated
signals plus the "Scrape error" note (the except handler falls through to
the final `return result, notes`, skipping the per-field notes of lines
183-188), and the success path appends a note per unresolved field
(lines 183-188; the weight note tests `is None`, the other two truthiness). -/
def scrape_amazon : FetchOutcome → Extracted × List String
  | .libsMissing =>
      (emptyExtracted, ["Scrape libraries not installed (httpx/bs4); using heuristics."])
  | .badStatus status =>
      (emptyExtracted, ["Amazon returned status " ++ toString status])
  | .exn ename emsg sigs =>
      (sigs, ["Scrape error: " ++ ename ++ ": " ++ emsg])
  | .ok page =>
      (page,
        (if page.materials.isEmpty then ["No materials found in page; will fall back to heuristics"] else [])
          ++ (if page.weight_kg = none then ["No weight found in page; will fall back to heuristics"] else [])
          ++ (if ¬ truthyOptStr page.origin then ["No country of origin found; defaulting to Unknown"] else []))

/-- Python `str.title()` helper: the Boolean argument records whether the
previous character was a letter (ASCII model of "cased"). -/
def pyTitleAux : List Char → Bool → List Char
  | [], _ => []
  | c :: cs, prevCased =>
      (if c.isAlpha then (if prevCased then c.toLower else c.toUpper) else c)
        :: pyTitleAux cs c.isAlpha

/-- Python `str.title()` (ASCII model). -/
def pyTitle (s : String) : String := (pyTitleAux s.toList false).asString

/-- Python `s.replace("-", " ")` for the single-character pattern used in
`extract_product_name_from_url`. -/
def replaceDashSpace (s : String) : String :=
  s.map (fun c => if c = '-' then ' ' else c)

/-- Python `s[:60]`. -/
def takeStr (s : String) (n : ℕ) : String := (s.toList.take n).asString

/-- The loop of `extract_product_name_from_url` (src/app.py lines 293-298):
walk the `/`-separated parts keeping the previous part; at each part equal
to `"dp"` with a predecessor, return the cleaned predecessor if non-empty,
otherwise keep scanning. -/
def findDpName : Option String → List String → Option String
  | _, [] => none
  | prev, p :: rest =>
      if p = "dp" then
        match prev with
        | some q =>
            let name_part := (replaceDashSpace q).trim
            if ¬ name_part = "" then some (pyTitle (takeStr name_part 60))
            else findDpName (some p) rest
        | none => findDpName (some p) rest
      else findDpName (some p) rest

/-- `extract_product_name_from_url` from src/app.py. -/
def extract_product_name_from_url (url : String) : String :=
  if strContains url "/dp/" then
    match findDpName none (url.splitOn "/") with
    | some v => v
    | none => "Product"
  else "Product"

/-- The signals `analyze_post` works with: the scrape result when the URL
contains `"amazon."` (line 342, tested on the raw URL), the empty dict
otherwise. -/
def effScraped (url : String) (fetch : FetchOutcome) : Extracted :=
  if strContains url "amazon." then (scrape_amazon fetch).1 else emptyExtracted

/-- The notes accumulated by `analyze_post` before building the response. -/
def effNotes (url : String) (fetch : FetchOutcome) : List String :=
  if strContains url "amazon." then (scrape_amazon fetch).2 else []

/-- `environmental_score` object of the response (src/app.py lines 363-370). -/
structure EnvScore where
  co2_total_kg : ℚ
  water_usage_liters : ℚ
  recyclability_score : ℚ
  durability_score : ℚ
  overall_eco_score : ℚ
  confidence_level : ℕ
  deriving DecidableEq

/-- `details` object of the response (src/app.py lines 372-382). -/
structure Details where
  materials : List String
  estimated_weight_kg : ℚ
  origin : String
  co2_manufacturing : ℚ
  co2_transport : ℚ
  source : String
  notes : List String
  deriving DecidableEq

/-- The response object of `analyze_post` (src/app.py lines 361-385); the
timestamp is environment-supplied and not modelled. -/
structure Response where
  product_name : String
  environmental_score : EnvScore
  recommendations : List String
  details : Details
  cached : Bool
  deriving DecidableEq

/-- `analyze_post` from src/app.py (lines 338-390, the non-cached path),
as a function of the URL and the fetch outcome.  Python `x or y` and
`x if x else y` on the optional fields are modelled by the explicit
truthiness tests. -/
def analyze_post (url : String) (fetch : FetchOutcome) : Response :=
  let scraped := effScraped url fetch
  let notes := effNotes url fetch
  let materials := if scraped.materials.isEmpty then guess_materials url else scraped.materials
  let weight_kg :=
    match scraped.weight_kg with
    | some w => if w = 0 then guess_weight_kg url else w
    | none => guess_weight_kg url
  let origin :=
    match scraped.origin with
    | some s =>
        if s = "" then (if ¬ strContains (pyLower url) "import" then "China" else "USA") else s
    | none => if ¬ strContains (pyLower url) "import" then "China" else "USA"
  let metrics := compute_metrics materials weight_kg origin
  let confidence :=
    min ((30 + (if scraped.materials.isEmpty then 0 else 25)
      + (if truthyOptQ scraped.weight_kg then 25 else 0))
      + (if truthyOptStr scraped.origin then 20 else 0)) 95
  let product_name :=
    match scraped.title with
    | some t => if t = "" then extract_product_name_from_url url else t
    | none => extract_product_name_from_url url
  { product_name := product_name,
    environmental_score :=
      { co2_total_kg := metrics.co2_total,
        water_usage_liters := metrics.water_usage,
        recyclability_score := metrics.recyclability,
        durability_score := metrics.durability,
        overall_eco_score := metrics.eco_score,
        confidence_level := confidence },
    recommendations := metrics.recommendations,
    details :=
      { materials := materials,
        estimated_weight_kg := weight_kg,
        origin := origin,
        co2_manufacturing := metrics.co2_manufacturing,
        co2_transport := metrics.co2_transport,
        source :=
          if ¬ scraped.materials.isEmpty ∨ truthyOptQ scraped.weight_kg ∨ truthyOptStr scraped.origin
          then "scrape" else "fallback",
        notes := notes },
    cached := false }

/-- The constraint the parser guarantees for signals it yields (complete or
partial): the weight regex of `scrape_amazon` matches only unsigned
numbers, so a parsed weight is never negative. -/
def FetchWF : FetchOutcome → Prop
  | .ok page => ∀ w : ℚ, page.weight_kg = some w → 0 ≤ w
  | .exn _ _ sigs => ∀ w : ℚ, sigs.weight_kg = some w → 0 ≤ w
  | _ => True

/-- The "complete, well-formed result" contract of spec §1/§7 for a
response: a non-empty product name, a non-empty resolved material list, a
positive resolved weight, a non-empty origin, a source tag that is one of
the two enum values, and a confidence level within [30, 95]. -/
def WellFormedResponse (r : Response) : Prop :=
  r.product_name ≠ ""
    ∧ r.details.materials ≠ []
    ∧ 0 < r.details.estimated_weight_kg
    ∧ r.details.origin ≠ ""
    ∧ (r.details.source = "scrape" ∨ r.details.source = "fallback")
    ∧ 30 ≤ r.environmental_score.confidence_level
    ∧ r.environmental_score.confidence_level ≤ 95

/-! ### Helper lemmas -/

theorem dedup_foldl_le_length (l acc : List String) :
    acc.length ≤ (l.foldl (fun acc x => if acc.contains x then acc else acc ++ [x]) acc).length := by
  induction l generalizing acc with
  | nil => simp
  | cons a l ih =>
      simp only [List.foldl_cons]
      refine le_trans ?_ (ih _)
      by_cases h : a ∈ acc <;> simp [h]

theorem dedupKeepFirst_ne_nil {l : List String} (h : l ≠ []) : dedupKeepFirst l ≠ [] := by
  match l with
  | [] => exact absurd rfl h
  | a :: as =>
      unfold dedupKeepFirst
      simp only [List.foldl_cons]
      have hstep : (if ([] : List String).contains a then ([] : List String) else [] ++ [a]) = [a] := by
        simp
      rw [hstep]
      intro hc
      have h1 := dedup_foldl_le_length as [a]
      rw [hc] at h1
      simp at h1

theorem dedup_foldl_mem (l : List String) (x : String) :
    ∀ acc : List String, x ∈ l ∨ x ∈ acc →
      x ∈ l.foldl (fun acc y => if acc.contains y then acc else acc ++ [y]) acc := by
  induction l with
  | nil => intro acc h; simpa using h
  | cons a l ih =>
      intro acc h
      simp only [List.foldl_cons]
      apply ih
      by_cases hc : a ∈ acc
      · rcases h with h | h
        · rcases List.mem_cons.mp h with rfl | h
          · right; simp [hc]
          · left; exact h
        · right; simpa [hc]
      · rcases h with h | h
        · rcases List.mem_cons.mp h with rfl | h
          · right; simp [hc]
          · left; exact h
        · right; simp [hc, h]

theorem dedupKeepFirst_mem {l : List String} {x : String} (h : x ∈ l) :
    x ∈ dedupKeepFirst l :=
  dedup_foldl_mem l x [] (Or.inl h)

theorem guess_weight_pos (url : String) : 0 < guess_weight_kg url := by
  simp only [guess_weight_kg]
  repeat' split
  all_goals norm_num

theorem guess_materials_ne_nil (url : String) : guess_materials url ≠ [] := by
  simp only [guess_materials]
  repeat' split
  case isTrue h =>
    exact dedupKeepFirst_ne_nil (by simpa [List.isEmpty_iff] using h)
  all_goals simp

theorem guess_materials_keyword_hit (url m : String) (keys : List String)
    (hmem : (m, keys) ∈ material_keywords)
    (hany : keys.any (fun k => strContains (pyLower url) k) = true) :
    m ∈ guess_materials url := by
  have hfound : m ∈ (material_keywords.filter
      (fun p => p.2.any (fun k => strContains (pyLower url) k))).map (fun p => p.1) :=
    List.mem_map.mpr ⟨(m, keys), List.mem_filter.mpr ⟨hmem, by simpa using hany⟩, rfl⟩
  simp only [guess_materials]
  rw [if_pos]
  · exact dedupKeepFirst_mem hfound
  · simp only [List.isEmpty_iff]
    intro hnil
    rw [hnil] at hfound
    simp at hfound

/-! ### Claim C9 -/

/-- C9: for every URL string, `guess_weight_kg` returns a value strictly
greater than 0 and `guess_materials` returns a non-empty sequence of
material names. -/
theorem heuristics_always_produce (url : String) :
    0 < guess_weight_kg url ∧ guess_materials url ≠ [] :=
  ⟨guess_weight_pos url, guess_materials_ne_nil url⟩

/-! ### Claim C5 -/

/-- C5 counterexample: "rubber" is a material name of `MATERIAL_DATABASE`
and the URL "https://shop.example/rubber-mat" contains it, but
`guess_materials` returns only `["plastic"]` ("rubber" has no entry of its
own in the keyword table — it is merely a keyword of "plastic"), so the
claimed inclusion fails. -/
theorem guess_materials_misses_rubber :
    "rubber" ∈ MATERIAL_DATABASE.map Prod.fst
      ∧ strContains (pyLower "https://shop.example/rubber-mat") "rubber" = true
      ∧ guess_materials "https://shop.example/rubber-mat" = ["plastic"]
      ∧ ¬ "rubber" ∈ guess_materials "https://shop.example/rubber-mat" := by
  decide

/-- C5 amended: for every material name of the Material Reference Table
other than "rubber", and every URL whose lowercased text contains that name
as a substring, `guess_materials url` includes that material. -/
theorem guess_materials_contains_table_name (url m : String)
    (hdb : m ∈ MATERIAL_DATABASE.map Prod.fst) (hne : m ≠ "rubber")
    (hsub : strContains (pyLower url) m = true) :
    m ∈ guess_materials url := by
  have hm : m = "steel" ∨ m = "aluminum" ∨ m = "plastic" ∨ m = "wood" ∨ m = "cotton"
      ∨ m = "polyester" ∨ m = "glass" ∨ m = "ceramic" ∨ m = "leather" ∨ m = "paper"
      ∨ m = "rubber" := by
    simpa [MATERIAL_DATABASE] using hdb
  rcases hm with rfl | rfl | rfl | rfl | rfl | rfl | rfl | rfl | rfl | rfl | rfl
  · exact guess_materials_keyword_hit url "steel" ["steel", "stainless", "iron", "metal"]
      (by decide) (List.any_eq_true.mpr ⟨"steel", by decide, hsub⟩)
  · exact guess_materials_keyword_hit url "aluminum" ["aluminum", "aluminium"]
      (by decide) (List.any_eq_true.mpr ⟨"aluminum", by decide, hsub⟩)
  · exact guess_materials_keyword_hit url "plastic"
      ["plastic", "polypropylene", "pp", "polyethylene", "pe", "pet", "abs", "silicone", "rubber"]
      (by decide) (List.any_eq_true.mpr ⟨"plastic", by decide, hsub⟩)
  · exact guess_materials_keyword_hit url "wood" ["wood", "bamboo", "oak", "pine", "cedar"]
      (by decide) (List.any_eq_true.mpr ⟨"wood", by decide, hsub⟩)
  · exact guess_materials_keyword_hit url "cotton" ["cotton"]
      (by decide) (List.any_eq_true.mpr ⟨"cotton", by decide, hsub⟩)
  · exact guess_materials_keyword_hit url "polyester" ["polyester", "synthetic"]
      (by decide) (List.any_eq_true.mpr ⟨"polyester", by decide, hsub⟩)
  · exact guess_materials_keyword_hit url "glass" ["glass"]
      (by decide) (List.any_eq_true.mpr ⟨"glass", by decide, hsub⟩)
  · exact guess_materials_keyword_hit url "ceramic" ["ceramic", "porcelain"]
      (by decide) (List.any_eq_true.mpr ⟨"ceramic", by decide, hsub⟩)
  · exact guess_materials_keyword_hit url "leather" ["leather"]
      (by decide) (List.any_eq_true.mpr ⟨"leather", by decide, hsub⟩)
  · exact guess_materials_keyword_hit url "paper" ["paper", "cardboard"]
      (by decide) (List.any_eq_true.mpr ⟨"paper", by decide, hsub⟩)
  · exact absurd rfl hne

/-- Witness for the amended C5 at a concrete input. -/
theorem guess_materials_contains_table_name_witness :
    "steel" ∈ guess_materials "https://shop.example/steel-bottle" :=
  guess_materials_contains_table_name "https://shop.example/steel-bottle" "steel"
    (by decide) (by decide) (by decide)


/-! ### Claim C3 -/

/-- C3: for materials=["steel"], weight_kg=1.0, origin="USA" the Score
Calculator yields exactly co2_manufacturing=2.4, co2_transport=0.1,
co2_total=2.5, recyclability=90, durability=95, eco_score=91.9, and the
intermediate scores co2_score=87.5 (at co2_total=2.5) and water_score=99.5
(at water=50). -/
theorem compute_metrics_steel_example :
    compute_metrics ["steel"] 1 "USA" =
      { co2_manufacturing := 12/5, co2_transport := 1/10, co2_total := 5/2,
        water_usage := 50, recyclability := 90, durability := 95, eco_score := 919/10,
        recommendations := [positiveMsg] }
      ∧ co2ScoreOf (5/2) = 175/2 ∧ waterScoreOf 50 = 199/2 := by
  refine ⟨?_, by norm_num [co2ScoreOf], by norm_num [waterScoreOf]⟩
  have h1 : materialProfileOrDefault "steel" = ⟨2, 50, 90, 95⟩ := rfl
  have h2 : transportDistance "USA" = 1000 := rfl
  unfold compute_metrics
  rw [h2]
  norm_num [h1, List.map, List.sum, ecoScoreOf, co2ScoreOf, waterScoreOf,
    roundTo, roundHalfEven, recommendationsFor, Metrics.mk.injEq]

/-! ### Claim C7 -/

/-- `a ∈ (if p then [b] else [])` unfolds to `p ∧ a = b`. -/
theorem mem_ite_singleton {p : Prop} [Decidable p] (a b : String) :
    a ∈ (if p then [b] else []) ↔ p ∧ a = b := by
  split <;> simp_all

/-- C7: recommendations are appended independently in fixed order
(co2_total>10, recyclability<50, durability<60), then exactly one of the
positive message (eco_score>70) and the seek-alternatives message
(eco_score<40), with neither in the 40-70 band. -/
theorem recommendations_structure (c r d e : ℚ) :
    recommendationsFor c r d e =
      (if c > 10 then [highCarbonMsg] else [])
        ++ (if r < 50 then [lowRecyclabilityMsg] else [])
        ++ (if d < 60 then [frequentReplacementMsg] else [])
        ++ (if e > 70 then [positiveMsg]
            else if e < 40 then [seekAlternativesMsg] else [])
    ∧ (e > 70 → positiveMsg ∈ recommendationsFor c r d e
        ∧ seekAlternativesMsg ∉ recommendationsFor c r d e)
    ∧ (e < 40 → seekAlternativesMsg ∈ recommendationsFor c r d e
        ∧ positiveMsg ∉ recommendationsFor c r d e)
    ∧ (40 ≤ e → e ≤ 70 → positiveMsg ∉ recommendationsFor c r d e
        ∧ seekAlternativesMsg ∉ recommendationsFor c r d e)
    ∧ (highCarbonMsg ∈ recommendationsFor c r d e ↔ c > 10)
    ∧ (lowRecyclabilityMsg ∈ recommendationsFor c r d e ↔ r < 50)
    ∧ (frequentReplacementMsg ∈ recommendationsFor c r d e ↔ d < 60) := by
  have n1 : positiveMsg ≠ highCarbonMsg := by decide
  have n2 : positiveMsg ≠ lowRecyclabilityMsg := by decide
  have n3 : positiveMsg ≠ frequentReplacementMsg := by decide
  have n4 : positiveMsg ≠ seekAlternativesMsg := by decide
  have n5 : seekAlternativesMsg ≠ highCarbonMsg := by decide
  have n6 : seekAlternativesMsg ≠ lowRecyclabilityMsg := by decide
  have n7 : seekAlternativesMsg ≠ frequentReplacementMsg := by decide
  have n8 : highCarbonMsg ≠ lowRecyclabilityMsg := by decide
  have n9 : highCarbonMsg ≠ frequentReplacementMsg := by decide
  have n10 : lowRecyclabilityMsg ≠ frequentReplacementMsg := by decide
  have tailOther : ∀ x : String, x ≠ positiveMsg → x ≠ seekAlternativesMsg →
      x ∉ (if e > 70 then [positiveMsg]
           else if e < 40 then [seekAlternativesMsg] else []) := by
    intro x hx1 hx2
    split
    · simp [hx1]
    · split
      · simp [hx2]
      · simp
  refine ⟨rfl, ?_, ?_, ?_, ?_, ?_, ?_⟩
  · intro he
    constructor
    · simp [recommendationsFor, List.mem_append, he]
    · simp [recommendationsFor, List.mem_append, mem_ite_singleton, he,
        n4.symm, n5, n6, n7]
  · intro he
    have hne : ¬ e > 70 := by linarith
    constructor
    · simp [recommendationsFor, List.mem_append, he, hne]
    · simp [recommendationsFor, List.mem_append, mem_ite_singleton, he, hne,
        n1, n2, n3, n4]
  · intro h40 h70
    have hne : ¬ e > 70 := by linarith
    have hne2 : ¬ e < 40 := by linarith
    constructor
    · simp [recommendationsFor, List.mem_append, mem_ite_singleton, hne, hne2,
        n1, n2, n3]
    · simp [recommendationsFor, List.mem_append, mem_ite_singleton, hne, hne2,
        n5, n6, n7]
  · simp [recommendationsFor, List.mem_append, mem_ite_singleton, n8, n9,
      tailOther highCarbonMsg n1.symm n5.symm]
  · simp [recommendationsFor, List.mem_append, mem_ite_singleton, n8.symm, n10,
      tailOther lowRecyclabilityMsg n2.symm n6.symm]
  · simp [recommendationsFor, List.mem_append, mem_ite_singleton, n9.symm, n10.symm,
      tailOther frequentReplacementMsg n3.symm n7.symm]

/-- Witness for C7: eco_score=95 includes the positive message and excludes
the seek-alternatives message; eco_score=20 the reverse. -/
theorem recommendations_structure_witness :
    (positiveMsg ∈ recommendationsFor 2 90 95 95
      ∧ seekAlternativesMsg ∉ recommendationsFor 2 90 95 95)
    ∧ (seekAlternativesMsg ∈ recommendationsFor 2 90 95 20
      ∧ positiveMsg ∉ recommendationsFor 2 90 95 20) :=
  ⟨(recommendations_structure 2 90 95 95).2.1 (by norm_num),
   (recommendations_structure 2 90 95 20).2.2.1 (by norm_num)⟩

/-! ### Claim C8 -/

/-- C8: holding recyclability, durability (and hence materials) fixed, the
eco-score formula of the Score Calculator is monotonically non-increasing
in co2_total and in water usage. -/
theorem eco_score_antitone (r d c₁ c₂ w₁ w₂ : ℚ) (hc : c₁ ≤ c₂) (hw : w₁ ≤ w₂) :
    ecoScoreOf c₂ w₂ r d ≤ ecoScoreOf c₁ w₁ r d := by
  have h1 : co2ScoreOf c₂ ≤ co2ScoreOf c₁ :=
    max_le_max le_rfl (by linarith)
  have h2 : waterScoreOf w₂ ≤ waterScoreOf w₁ :=
    max_le_max le_rfl (by linarith)
  unfold ecoScoreOf
  linarith

/-- Witness for C8 at concrete inputs. -/
theorem eco_score_antitone_witness :
    ecoScoreOf 2 200 50 50 ≤ ecoScoreOf 1 100 50 50 :=
  eco_score_antitone 50 50 1 2 100 200 (by norm_num) (by norm_num)


/-! ### Claim C1 -/

/-- The confidence expression of `analyze_post` only attains the six values
30, 50, 55, 75, 80, 95. -/
theorem conf_min_mem (x : Extracted) :
    min ((30 + (if x.materials.isEmpty then 0 else 25)
      + (if truthyOptQ x.weight_kg then 25 else 0))
      + (if truthyOptStr x.origin then 20 else 0)) 95 ∈ ([30, 50, 55, 75, 80, 95] : List ℕ) := by
  by_cases h1 : x.materials.isEmpty <;> by_cases h2 : truthyOptQ x.weight_kg <;>
    by_cases h3 : truthyOptStr x.origin <;> simp [h1, h2, h3]

/-- C1 counterexample: a request whose page yields only a country of origin
(no materials, no weight) gets confidence 30+20 = 50, which is not in the
claimed value set {30, 55, 75, 80, 95}. -/
theorem confidence_origin_only_is_fifty :
    (analyze_post "https://www.amazon.com/gadget"
      (.ok ⟨none, [], none, some "Vietnam"⟩)).environmental_score.confidence_level = 50
    ∧ (analyze_post "https://www.amazon.com/gadget"
        (.ok ⟨none, [], none, some "Vietnam"⟩)).environmental_score.confidence_level
        ∉ ([30, 55, 75, 80, 95] : List ℕ) := by
  decide

/-- C1 amended: confidence equals 30 plus 25 if materials were
extraction-derived, plus 25 if weight was, plus 20 if origin was, capped at
95; over all 8 subsets of extracted fields it always lies in
{30, 50, 55, 75, 80, 95}. -/
theorem confidence_formula_and_reachable_set (url : String) (fetch : FetchOutcome) :
    (analyze_post url fetch).environmental_score.confidence_level
      = min ((30 + (if (effScraped url fetch).materials = [] then 0 else 25)
          + (if truthyOptQ (effScraped url fetch).weight_kg then 25 else 0))
          + (if truthyOptStr (effScraped url fetch).origin then 20 else 0)) 95
    ∧ (analyze_post url fetch).environmental_score.confidence_level
        ∈ ([30, 50, 55, 75, 80, 95] : List ℕ) := by
  constructor
  · simp [analyze_post, List.isEmpty_iff]
  · have h := conf_min_mem (effScraped url fetch)
    simpa [analyze_post] using h

/-! ### Claim C4 -/

/-- C4 counterexample: a page from which only the *title* was extracted
(materials, weight, origin all absent) is tagged "fallback" by the code,
although the claim (which counts title among the extracted signal fields)
would require "scrape". -/
theorem source_tag_ignores_title :
    (effScraped "https://www.amazon.com/item"
        (.ok ⟨some "Steel Bottle", [], none, none⟩)).title = some "Steel Bottle"
    ∧ (analyze_post "https://www.amazon.com/item"
        (.ok ⟨some "Steel Bottle", [], none, none⟩)).details.source = "fallback" := by
  decide

/-- C4 amended: the source tag is "scrape" exactly when one of the three
signal fields materials, weight, origin was extraction-derived (truthy), and
"fallback" otherwise; the extracted title does not participate. -/
theorem source_tag_iff_signal_fields (url : String) (fetch : FetchOutcome) :
    ((analyze_post url fetch).details.source = "scrape"
      ↔ ((effScraped url fetch).materials ≠ []
          ∨ truthyOptQ (effScraped url fetch).weight_kg = true
          ∨ truthyOptStr (effScraped url fetch).origin = true))
    ∧ ((analyze_post url fetch).details.source = "fallback"
      ↔ ¬ ((effScraped url fetch).materials ≠ []
          ∨ truthyOptQ (effScraped url fetch).weight_kg = true
          ∨ truthyOptStr (effScraped url fetch).origin = true)) := by
  have hsrc : (analyze_post url fetch).details.source
      = if (¬ (effScraped url fetch).materials.isEmpty
            ∨ truthyOptQ (effScraped url fetch).weight_kg
            ∨ truthyOptStr (effScraped url fetch).origin)
        then "scrape" else "fallback" := rfl
  have hcond : (¬ (effScraped url fetch).materials.isEmpty = true
        ∨ truthyOptQ (effScraped url fetch).weight_kg = true
        ∨ truthyOptStr (effScraped url fetch).origin = true)
      ↔ ((effScraped url fetch).materials ≠ []
        ∨ truthyOptQ (effScraped url fetch).weight_kg = true
        ∨ truthyOptStr (effScraped url fetch).origin = true) := by
    simp [List.isEmpty_iff]
  have hne : ("scrape" : String) ≠ "fallback" := by decide
  rw [hsrc]
  by_cases h : (¬ (effScraped url fetch).materials.isEmpty = true
      ∨ truthyOptQ (effScraped url fetch).weight_kg = true
      ∨ truthyOptStr (effScraped url fetch).origin = true)
  · rw [if_pos h]
    simp [hcond.mp h, hne]
  · rw [if_neg h]
    simp [hcond.not.mp h, hne.symm]


/-! ### Claim C6 -/

/-- C6 counterexample: the code tests `"import" in url.lower()`, not the raw
URL; for the URL "IMPORT" the raw URL does not contain the substring
"import" (so the claim's default rule prescribes "China"), yet the resolved
origin is "USA". -/
theorem origin_default_case_sensitivity :
    strContains "IMPORT" "import" = false
    ∧ (analyze_post "IMPORT" .libsMissing).details.origin = "USA" := by
  decide

/-- C6 amended: each resolved field takes the extracted value when it is
truthy (non-empty list, non-zero weight, non-empty string); otherwise
materials and weight fall back to the Heuristic Classifier and origin to the
fixed default "China", or "USA" when the *lowercased* URL contains the
substring "import". -/
theorem resolution_precedence (url : String) (fetch : FetchOutcome) :
    ((effScraped url fetch).materials ≠ [] →
      (analyze_post url fetch).details.materials = (effScraped url fetch).materials)
    ∧ ((effScraped url fetch).materials = [] →
      (analyze_post url fetch).details.materials = guess_materials url)
    ∧ (∀ w : ℚ, (effScraped url fetch).weight_kg = some w → w ≠ 0 →
      (analyze_post url fetch).details.estimated_weight_kg = w)
    ∧ (truthyOptQ (effScraped url fetch).weight_kg = false →
      (analyze_post url fetch).details.estimated_weight_kg = guess_weight_kg url)
    ∧ (∀ s : String, (effScraped url fetch).origin = some s → s ≠ "" →
      (analyze_post url fetch).details.origin = s)
    ∧ (truthyOptStr (effScraped url fetch).origin = false →
      (analyze_post url fetch).details.origin =
        (if strContains (pyLower url) "import" then "USA" else "China")) := by
  have hm : (analyze_post url fetch).details.materials
      = (if (effScraped url fetch).materials.isEmpty then guess_materials url
         else (effScraped url fetch).materials) := rfl
  have hw : (analyze_post url fetch).details.estimated_weight_kg
      = (match (effScraped url fetch).weight_kg with
         | some w => if w = 0 then guess_weight_kg url else w
         | none => guess_weight_kg url) := rfl
  have ho : (analyze_post url fetch).details.origin
      = (match (effScraped url fetch).origin with
         | some s =>
             if s = "" then (if ¬ strContains (pyLower url) "import" then "China" else "USA")
             else s
         | none => if ¬ strContains (pyLower url) "import" then "China" else "USA") := rfl
  refine ⟨?_, ?_, ?_, ?_, ?_, ?_⟩
  · intro h
    rw [hm, if_neg (by simpa [List.isEmpty_iff] using h)]
  · intro h
    rw [hm, if_pos (by simpa [List.isEmpty_iff] using h)]
  · intro w hweq hw0
    rw [hw, hweq]
    simp [hw0]
  · intro h
    rw [hw]
    cases hq : (effScraped url fetch).weight_kg with
    | none => rfl
    | some q =>
        have hq0 : q = 0 := by simpa [truthyOptQ, hq] using h
        simp [hq0]
  · intro s hseq hs0
    rw [ho, hseq]
    simp [hs0]
  · intro h
    rw [ho]
    cases hq : (effScraped url fetch).origin with
    | none => by_cases hc : strContains (pyLower url) "import" = true <;> simp [hc]
    | some s =>
        have hs0 : s = "" := by simpa [truthyOptStr, hq] using h
        by_cases hc : strContains (pyLower url) "import" = true <;> simp [hs0, hc]

/-- Witness for the amended C6 at a concrete input: extracted materials and
weight win, and the origin default follows the lowercased-URL rule. -/
theorem resolution_precedence_witness :
    (analyze_post "https://IMPORTant.amazon.com/x"
        (.ok ⟨none, ["steel"], some 2, none⟩)).details.materials = ["steel"]
    ∧ (analyze_post "https://IMPORTant.amazon.com/x"
        (.ok ⟨none, ["steel"], some 2, none⟩)).details.estimated_weight_kg = 2
    ∧ (analyze_post "https://IMPORTant.amazon.com/x"
        (.ok ⟨none, ["steel"], some 2, none⟩)).details.origin =
        (if strContains (pyLower "https://IMPORTant.amazon.com/x") "import"
         then "USA" else "China") :=
  ⟨(resolution_precedence "https://IMPORTant.amazon.com/x"
      (.ok ⟨none, ["steel"], some 2, none⟩)).1 (by decide),
   (resolution_precedence "https://IMPORTant.amazon.com/x"
      (.ok ⟨none, ["steel"], some 2, none⟩)).2.2.1 2 (by decide) (by norm_num),
   (resolution_precedence "https://IMPORTant.amazon.com/x"
      (.ok ⟨none, ["steel"], some 2, none⟩)).2.2.2.2.2 (by decide)⟩


/-! ### Claim C2 -/

theorem string_ne_empty_iff_data (s : String) : s ≠ "" ↔ s.data ≠ [] := by
  constructor
  · intro h hd
    exact h (by cases s; simp_all)
  · intro h hs
    exact h (by simp [hs])

theorem take_ne_nil {l : List Char} (h : l ≠ []) (n : ℕ) (hn : n ≠ 0) :
    l.take n ≠ [] := by
  cases l with
  | nil => exact absurd rfl h
  | cons a as =>
      cases n with
      | zero => exact absurd rfl hn
      | succ m => simp

theorem pyTitleAux_ne_nil {l : List Char} (h : l ≠ []) (b : Bool) :
    pyTitleAux l b ≠ [] := by
  cases l with
  | nil => exact absurd rfl h
  | cons a as => simp [pyTitleAux]

theorem pyTitle_ne_empty {s : String} (h : s ≠ "") : pyTitle s ≠ "" := by
  rw [string_ne_empty_iff_data] at h ⊢
  exact pyTitleAux_ne_nil (by simpa [String.toList] using h) false

theorem takeStr_ne_empty {s : String} (h : s ≠ "") {n : ℕ} (hn : n ≠ 0) :
    takeStr s n ≠ "" := by
  rw [string_ne_empty_iff_data] at h ⊢
  exact take_ne_nil (by simpa [String.toList] using h) n hn

theorem findDpName_some_ne_empty :
    ∀ (parts : List String) (prev : Option String) (v : String),
      findDpName prev parts = some v → v ≠ "" := by
  intro parts
  induction parts with
  | nil => intro prev v h; simp [findDpName] at h
  | cons p rest ih =>
      intro prev v h
      cases prev with
      | none =>
          simp only [findDpName] at h
          by_cases hp : p = "dp"
          · rw [if_pos hp] at h
            exact ih (some p) v h
          · rw [if_neg hp] at h
            exact ih (some p) v h
      | some q =>
          simp only [findDpName] at h
          by_cases hp : p = "dp"
          · rw [if_pos hp] at h
            by_cases hq : (replaceDashSpace q).trim = ""
            · rw [if_neg (by simp [hq])] at h
              exact ih (some p) v h
            · rw [if_pos (by simp [hq])] at h
              have hv : v = pyTitle (takeStr (replaceDashSpace q).trim 60) :=
                Option.some_injective _ h.symm
              rw [hv]
              exact pyTitle_ne_empty (takeStr_ne_empty hq (by norm_num))
          · rw [if_neg hp] at h
            exact ih (some p) v h

theorem extract_product_name_ne_empty (url : String) :
    extract_product_name_from_url url ≠ "" := by
  rw [extract_product_name_from_url]
  split
  · cases hf : findDpName none (url.splitOn "/") with
    | none => simp [hf]
    | some v =>
        simp only [hf]
        exact findDpName_some_ne_empty _ _ _ hf
  · decide

theorem effScraped_weight_nonneg {url : String} {fetch : FetchOutcome}
    (hwf : FetchWF fetch) :
    ∀ w : ℚ, (effScraped url fetch).weight_kg = some w → 0 ≤ w := by
  intro w hw
  unfold effScraped at hw
  by_cases ha : strContains url "amazon." = true
  · rw [if_pos ha] at hw
    cases fetch with
    | ok page => exact hwf w hw
    | libsMissing => simp [scrape_amazon, emptyExtracted] at hw
    | badStatus st => simp [scrape_amazon, emptyExtracted] at hw
    | exn en em sigs => exact hwf w hw
  · rw [if_neg ha] at hw
    simp [emptyExtracted] at hw

/-- C2: for every URL (empty and unparseable ones included) and every fetch
outcome, `analyze_post` returns a complete, well-formed result; every
failure on a recognized marketplace URL leaves a diagnostic note instead of
an error; and every *fetch-level* failure — an unavailable optional
dependency, a non-200/empty response, or an exception from the fetch call
itself, the cases spec §7 calls ExternalFetchFailure — degrades every field
to the heuristic defaults with the "fallback" tag.  (A mid-parse exception
instead keeps the signals parsed before it, per the except handler of
lines 190-193, and only the still-missing fields fall back.  The hypothesis
`FetchWF` records what the source's digits-only weight regex guarantees
about parsed signals: a scraped weight is never negative.) -/
theorem analyze_total_wellformed (url : String) (fetch : FetchOutcome)
    (hwf : FetchWF fetch) :
    WellFormedResponse (analyze_post url fetch)
    ∧ (FetchFailed fetch → strContains url "amazon." = true →
        (analyze_post url fetch).details.notes ≠ [])
    ∧ (FetchLevelFailure fetch → strContains url "amazon." = true →
        (analyze_post url fetch).details.materials = guess_materials url
        ∧ (analyze_post url fetch).details.estimated_weight_kg = guess_weight_kg url
        ∧ (analyze_post url fetch).details.origin
            = (if strContains (pyLower url) "import" then "USA" else "China")
        ∧ (analyze_post url fetch).details.source = "fallback") := by
  constructor
  · refine ⟨?_, ?_, ?_, ?_, ?_, ?_, ?_⟩
    · -- product name non-empty
      have hp : (analyze_post url fetch).product_name
          = (match (effScraped url fetch).title with
             | some t => if t = "" then extract_product_name_from_url url else t
             | none => extract_product_name_from_url url) := rfl
      rw [hp]
      cases ht : (effScraped url fetch).title with
      | none => exact extract_product_name_ne_empty url
      | some t =>
          show (if t = "" then extract_product_name_from_url url else t) ≠ ""
          by_cases h0 : t = ""
          · rw [if_pos h0]
            exact extract_product_name_ne_empty url
          · rw [if_neg h0]
            exact h0
    · -- materials non-empty
      have hm : (analyze_post url fetch).details.materials
          = (if (effScraped url fetch).materials.isEmpty then guess_materials url
             else (effScraped url fetch).materials) := rfl
      rw [hm]
      split
      · exact guess_materials_ne_nil url
      · next h => simpa [List.isEmpty_iff] using h
    · -- weight positive
      have hw : (analyze_post url fetch).details.estimated_weight_kg
          = (match (effScraped url fetch).weight_kg with
             | some w => if w = 0 then guess_weight_kg url else w
             | none => guess_weight_kg url) := rfl
      rw [hw]
      cases hq : (effScraped url fetch).weight_kg with
      | none => exact guess_weight_pos url
      | some q =>
          by_cases h0 : q = 0
          · simpa [h0] using guess_weight_pos url
          · have hge := effScraped_weight_nonneg hwf q hq
            simp only [h0, if_false]
            exact lt_of_le_of_ne hge (Ne.symm h0)
    · -- origin non-empty
      have ho : (analyze_post url fetch).details.origin
          = (match (effScraped url fetch).origin with
             | some s =>
                 if s = "" then (if ¬ strContains (pyLower url) "import" then "China" else "USA")
                 else s
             | none => if ¬ strContains (pyLower url) "import" then "China" else "USA") := rfl
      rw [ho]
      cases hs : (effScraped url fetch).origin with
      | none =>
          show (if ¬ strContains (pyLower url) "import" then "China" else "USA") ≠ ""
          split <;> decide
      | some s =>
          show (if s = ""
              then (if ¬ strContains (pyLower url) "import" then "China" else "USA")
              else s) ≠ ""
          by_cases h0 : s = ""
          · rw [if_pos h0]
            split <;> decide
          · rw [if_neg h0]
            exact h0
    · -- source tag is one of the two enum values
      have hsrc : (analyze_post url fetch).details.source
          = (if (¬ (effScraped url fetch).materials.isEmpty
                ∨ truthyOptQ (effScraped url fetch).weight_kg
                ∨ truthyOptStr (effScraped url fetch).origin)
             then "scrape" else "fallback") := rfl
      rw [hsrc]
      split
      · left; rfl
      · right; rfl
    · -- confidence at least 30
      have hc : (analyze_post url fetch).environmental_score.confidence_level
          = min ((30 + (if (effScraped url fetch).materials.isEmpty then 0 else 25)
              + (if truthyOptQ (effScraped url fetch).weight_kg then 25 else 0))
              + (if truthyOptStr (effScraped url fetch).origin then 20 else 0)) 95 := rfl
      rw [hc]
      refine Nat.le_min.mpr ⟨?_, by norm_num⟩
      have h30 : 30 ≤ 30 + (if (effScraped url fetch).materials.isEmpty then 0 else 25) :=
        Nat.le_add_right 30 _
      omega
    · -- confidence at most 95
      have hc : (analyze_post url fetch).environmental_score.confidence_level
          = min ((30 + (if (effScraped url fetch).materials.isEmpty then 0 else 25)
              + (if truthyOptQ (effScraped url fetch).weight_kg then 25 else 0))
              + (if truthyOptStr (effScraped url fetch).origin then 20 else 0)) 95 := rfl
      rw [hc]
      exact Nat.min_le_right _ 95
  constructor
  · -- every failure records a diagnostic note
    intro hfail ha
    have hn : (analyze_post url fetch).details.notes = effNotes url fetch := rfl
    rw [hn]
    unfold effNotes
    rw [if_pos ha]
    cases fetch with
    | ok page => exact absurd hfail (by simp [FetchFailed])
    | libsMissing => simp [scrape_amazon]
    | badStatus st => simp [scrape_amazon]
    | exn en em sigs => simp [scrape_amazon]
  · -- a fetch-level failure degrades every field to the heuristic defaults
    intro hlf ha
    have hscr : effScraped url fetch = emptyExtracted := by
      unfold effScraped
      rw [if_pos ha]
      cases fetch with
      | ok page => exact absurd hlf (by simp [FetchLevelFailure])
      | libsMissing => rfl
      | badStatus st => rfl
      | exn en em sigs => exact hlf
    refine ⟨?_, ?_, ?_, ?_⟩
    · have hm : (analyze_post url fetch).details.materials
          = (if (effScraped url fetch).materials.isEmpty then guess_materials url
             else (effScraped url fetch).materials) := rfl
      rw [hm, hscr]
      simp [emptyExtracted]
    · have hw : (analyze_post url fetch).details.estimated_weight_kg
          = (match (effScraped url fetch).weight_kg with
             | some w => if w = 0 then guess_weight_kg url else w
             | none => guess_weight_kg url) := rfl
      rw [hw, hscr]
      rfl
    · have ho : (analyze_post url fetch).details.origin
          = (match (effScraped url fetch).origin with
             | some s =>
                 if s = "" then (if ¬ strContains (pyLower url) "import" then "China" else "USA")
                 else s
             | none => if ¬ strContains (pyLower url) "import" then "China" else "USA") := rfl
      rw [ho, hscr]
      by_cases hc : strContains (pyLower url) "import" = true <;> simp [hc, emptyExtracted]
    · have hsrc : (analyze_post url fetch).details.source
          = (if (¬ (effScraped url fetch).materials.isEmpty
                ∨ truthyOptQ (effScraped url fetch).weight_kg
                ∨ truthyOptStr (effScraped url fetch).origin)
             then "scrape" else "fallback") := rfl
      rw [hsrc, hscr]
      rw [if_neg]
      simp [emptyExtracted, truthyOptQ, truthyOptStr]

/-- Witness for C2: a recognized marketplace URL whose fetch fails because
the scrape libraries are unavailable still yields a well-formed result,
with a note, all fields on heuristic defaults and the "fallback" tag. -/
theorem analyze_total_wellformed_witness :
    WellFormedResponse (analyze_post "https://www.amazon.com/dp/B0TEST" .libsMissing)
    ∧ (FetchFailed .libsMissing
        → strContains "https://www.amazon.com/dp/B0TEST" "amazon." = true
        → (analyze_post "https://www.amazon.com/dp/B0TEST" .libsMissing).details.notes ≠ [])
    ∧ (FetchLevelFailure .libsMissing
        → strContains "https://www.amazon.com/dp/B0TEST" "amazon." = true
        → (analyze_post "https://www.amazon.com/dp/B0TEST" .libsMissing).details.materials
            = guess_materials "https://www.amazon.com/dp/B0TEST"
        ∧ (analyze_post "https://www.amazon.com/dp/B0TEST" .libsMissing).details.estimated_weight_kg
            = guess_weight_kg "https://www.amazon.com/dp/B0TEST"
        ∧ (analyze_post "https://www.amazon.com/dp/B0TEST" .libsMissing).details.origin
            = (if strContains (pyLower "https://www.amazon.com/dp/B0TEST") "import"
               then "USA" else "China")
        ∧ (analyze_post "https://www.amazon.com/dp/B0TEST" .libsMissing).details.source
            = "fallback") :=
  analyze_total_wellformed "https://www.amazon.com/dp/B0TEST" .libsMissing trivial


/-! ### Claim C10 -/

theorem lookup_getD_prop {α β : Type} [BEq α] (P : β → Prop) (k : α)
    (l : List (α × β)) (d : β) (hl : ∀ p ∈ l, P p.2) (hd : P d) :
    P ((l.lookup k).getD d) := by
  induction l with
  | nil => simpa [List.lookup] using hd
  | cons a l ih =>
      obtain ⟨a1, a2⟩ := a
      by_cases h : k == a1
      · simpa [List.lookup, h] using hl (a1, a2) (List.mem_cons_self _ l)
      · simp only [List.lookup, h]
        exact ih (fun p hp => hl p (List.mem_cons_of_mem _ hp))

theorem materialProfile_bounds (m : String) :
    0 ≤ (materialProfileOrDefault m).co2_per_kg
    ∧ 0 ≤ (materialProfileOrDefault m).water_per_kg
    ∧ 0 ≤ (materialProfileOrDefault m).recyclability
    ∧ (materialProfileOrDefault m).recyclability ≤ 100
    ∧ 0 ≤ (materialProfileOrDefault m).durability
    ∧ (materialProfileOrDefault m).durability ≤ 100 := by
  unfold materialProfileOrDefault
  refine lookup_getD_prop (fun p => 0 ≤ p.co2_per_kg ∧ 0 ≤ p.water_per_kg
    ∧ 0 ≤ p.recyclability ∧ p.recyclability ≤ 100
    ∧ 0 ≤ p.durability ∧ p.durability ≤ 100) m MATERIAL_DATABASE _ ?_ ?_
  · intro p hp
    simp only [MATERIAL_DATABASE, List.mem_cons, List.not_mem_nil, or_false] at hp
    rcases hp with rfl | rfl | rfl | rfl | rfl | rfl | rfl | rfl | rfl | rfl | rfl <;>
      exact ⟨by norm_num, by norm_num, by norm_num, by norm_num, by norm_num, by norm_num⟩
  · exact ⟨by norm_num, by norm_num, by norm_num, by norm_num, by norm_num, by norm_num⟩

theorem transportDistance_nonneg (o : String) : 0 ≤ transportDistance o := by
  unfold transportDistance
  refine lookup_getD_prop (fun d => 0 ≤ d) _ TRANSPORT_DISTANCES _ ?_ ?_
  · intro p hp
    simp only [TRANSPORT_DISTANCES, List.mem_cons, List.not_mem_nil, or_false] at hp
    rcases hp with rfl | rfl | rfl | rfl | rfl | rfl | rfl <;> norm_num
  · norm_num

theorem roundHalfEven_bounds {x : ℚ} {lo hi : ℤ} (h1 : (lo : ℚ) ≤ x) (h2 : x ≤ (hi : ℚ)) :
    lo ≤ roundHalfEven x ∧ roundHalfEven x ≤ hi := by
  have hf1 : lo ≤ ⌊x⌋ := Int.le_floor.mpr h1
  have hf2 : ⌊x⌋ ≤ hi := by
    have h := Int.floor_le_floor h2
    simpa using h
  have hfl : (⌊x⌋ : ℚ) ≤ x := Int.floor_le x
  simp only [roundHalfEven]
  split_ifs with ha hb hc
  · exact ⟨hf1, hf2⟩
  · have hq : (⌊x⌋ : ℚ) < (hi : ℚ) := by linarith
    have hfi : ⌊x⌋ < hi := by exact_mod_cast hq
    omega
  · exact ⟨hf1, hf2⟩
  · have e1 : (1 : ℚ)/2 ≤ x - ⌊x⌋ := not_lt.mp ha
    have e2 : x - ⌊x⌋ ≤ 1/2 := not_lt.mp hb
    have hq : (⌊x⌋ : ℚ) < (hi : ℚ) := by linarith
    have hfi : ⌊x⌋ < hi := by exact_mod_cast hq
    omega

theorem roundTo_bounds (q : ℚ) (n : ℕ) {lo hi : ℤ} (h1 : (lo : ℚ) ≤ q) (h2 : q ≤ (hi : ℚ)) :
    (lo : ℚ) ≤ roundTo q n ∧ roundTo q n ≤ (hi : ℚ) := by
  have hp : (0 : ℚ) < 10 ^ n := by positivity
  have hb := @roundHalfEven_bounds (q * 10 ^ n) (lo * 10 ^ n) (hi * 10 ^ n)
    (by push_cast; exact mul_le_mul_of_nonneg_right h1 hp.le)
    (by push_cast; exact mul_le_mul_of_nonneg_right h2 hp.le)
  unfold roundTo
  constructor
  · rw [le_div_iff₀ hp]
    have hcast : ((lo * 10 ^ n : ℤ) : ℚ) ≤ (roundHalfEven (q * 10 ^ n) : ℚ) := by
      exact_mod_cast hb.1
    calc (lo : ℚ) * 10 ^ n = ((lo * 10 ^ n : ℤ) : ℚ) := by push_cast; ring
      _ ≤ (roundHalfEven (q * 10 ^ n) : ℚ) := hcast
  · rw [div_le_iff₀ hp]
    have hcast : (roundHalfEven (q * 10 ^ n) : ℚ) ≤ ((hi * 10 ^ n : ℤ) : ℚ) := by
      exact_mod_cast hb.2
    calc (roundHalfEven (q * 10 ^ n) : ℚ) ≤ ((hi * 10 ^ n : ℤ) : ℚ) := hcast
      _ = (hi : ℚ) * 10 ^ n := by push_cast; ring

theorem ecoScoreOf_bounds {c wt r d : ℚ} (hc : 0 ≤ c) (hwt : 0 ≤ wt)
    (hr1 : 0 ≤ r) (hr2 : r ≤ 100) (hd1 : 0 ≤ d) (hd2 : d ≤ 100) :
    0 ≤ ecoScoreOf c wt r d ∧ ecoScoreOf c wt r d ≤ 100 := by
  have h1 : 0 ≤ co2ScoreOf c := le_max_left 0 _
  have h2 : co2ScoreOf c ≤ 100 := max_le (by norm_num) (by linarith)
  have h3 : 0 ≤ waterScoreOf wt := le_max_left 0 _
  have h4 : waterScoreOf wt ≤ 100 := by
    apply max_le (by norm_num)
    have h : 0 ≤ wt / 100 := by positivity
    linarith
  unfold ecoScoreOf
  constructor <;> linarith

theorem mean_bounds {l : List ℚ} (h0 : ∀ x ∈ l, 0 ≤ x) (h100 : ∀ x ∈ l, x ≤ 100) :
    0 ≤ l.sum / (l.length : ℚ) ∧ l.sum / (l.length : ℚ) ≤ 100 := by
  rcases eq_or_ne l [] with rfl | hl
  · norm_num
  · have hlen : 0 < (l.length : ℚ) := by
      have h := List.length_pos.mpr hl
      exact_mod_cast h
    constructor
    · exact div_nonneg (List.sum_nonneg h0) hlen.le
    · rw [div_le_iff₀ hlen]
      have h := List.sum_le_card_nsmul l 100 h100
      simpa [nsmul_eq_mul, mul_comm] using h

/-- C10: for every non-empty materials list, every positive weight and every
origin string, the rounded eco-score returned by `compute_metrics` lies in
[0, 100]: the two clamped component scores lie in [0,100] because the
accumulated co2 and water are non-negative, and the recyclability and
durability means stay in [0,100] because every profile (table or default)
does. -/
theorem eco_score_bounded (ms : List String) (w : ℚ) (o : String)
    (hms : ms ≠ []) (hw : 0 < w) :
    0 ≤ (compute_metrics ms w o).eco_score ∧ (compute_metrics ms w o).eco_score ≤ 100 := by
  have hne : ms.isEmpty = false := by simpa [List.isEmpty_iff] using hms
  have hweach : 0 ≤ w / (ms.length : ℚ) := by
    have hlen : (0 : ℚ) ≤ (ms.length : ℚ) := by positivity
    exact div_nonneg hw.le hlen
  have hC : 0 ≤ (List.map (fun d => w / (ms.length : ℚ) * d.co2_per_kg)
        (List.map materialProfileOrDefault ms)).sum * (12/10)
      + w * transportDistance o * (1/100000) * 10 := by
    have hs : 0 ≤ (List.map (fun d => w / (ms.length : ℚ) * d.co2_per_kg)
        (List.map materialProfileOrDefault ms)).sum := by
      apply List.sum_nonneg
      intro x hx
      simp only [List.mem_map] at hx
      obtain ⟨d, ⟨m, hm, rfl⟩, rfl⟩ := hx
      exact mul_nonneg hweach (materialProfile_bounds m).1
    have ht : 0 ≤ w * transportDistance o * (1/100000) * 10 :=
      mul_nonneg (mul_nonneg (mul_nonneg hw.le (transportDistance_nonneg o))
        (by norm_num)) (by norm_num)
    linarith
  have hW : 0 ≤ (List.map (fun d => w / (ms.length : ℚ) * d.water_per_kg)
      (List.map materialProfileOrDefault ms)).sum := by
    apply List.sum_nonneg
    intro x hx
    simp only [List.mem_map] at hx
    obtain ⟨d, ⟨m, hm, rfl⟩, rfl⟩ := hx
    exact mul_nonneg hweach (materialProfile_bounds m).2.1
  have hR := @mean_bounds (List.map (fun d => d.recyclability)
      (List.map materialProfileOrDefault ms))
    (by
      intro x hx
      simp only [List.mem_map] at hx
      obtain ⟨d, ⟨m, hm, rfl⟩, rfl⟩ := hx
      exact (materialProfile_bounds m).2.2.1)
    (by
      intro x hx
      simp only [List.mem_map] at hx
      obtain ⟨d, ⟨m, hm, rfl⟩, rfl⟩ := hx
      exact (materialProfile_bounds m).2.2.2.1)
  have hD := @mean_bounds (List.map (fun d => d.durability)
      (List.map materialProfileOrDefault ms))
    (by
      intro x hx
      simp only [List.mem_map] at hx
      obtain ⟨d, ⟨m, hm, rfl⟩, rfl⟩ := hx
      exact (materialProfile_bounds m).2.2.2.2.1)
    (by
      intro x hx
      simp only [List.mem_map] at hx
      obtain ⟨d, ⟨m, hm, rfl⟩, rfl⟩ := hx
      exact (materialProfile_bounds m).2.2.2.2.2)
  have hscore := ecoScoreOf_bounds hC hW hR.1 hR.2 hD.1 hD.2
  unfold compute_metrics
  simp only [hne, Bool.false_eq_true, if_false]
  have hfinal := @roundTo_bounds _ 1 0 100
    (by exact_mod_cast hscore.1) (by exact_mod_cast hscore.2)
  constructor
  · simpa using hfinal.1
  · simpa using hfinal.2

/-- Witness for C10 at a concrete input. -/
theorem eco_score_bounded_witness :
    0 ≤ (compute_metrics ["steel"] 1 "USA").eco_score
    ∧ (compute_metrics ["steel"] 1 "USA").eco_score ≤ 100 :=
  eco_score_bounded ["steel"] 1 "USA" (by simp) (by norm_num)

end EcoApi
